import Mathlib

/-!
Verification of the multi-provider session-routing layer of the
cheating-daddy desktop application.

The development shallowly embeds the OpenRouter provider adapter
(`src/src/openrouter.js`, together with the older duplicate at
`src/openrouter.js`, written here with a `Root` suffix) and the unified
IPC boundary handlers (`src/src/unified-handlers.js`).  Module-level
mutable variables become explicit state records, `Date.now()` becomes an
explicit `Nat` argument threaded to each read, and the awaited network
call becomes a `NetResult` oracle argument describing the outcome the
backend produced.  External collaborators (the system-prompt builder,
the Gemini adapter, `localStorage` reads) are passed in as parameters,
matching the spec's treatment of them as black boxes.
-/

namespace Cheddar

/-- JS `String.prototype.trim()`: strip leading and trailing whitespace.
Modelled structurally over the character list so that it evaluates
inside the kernel (Lean's own `String.trim` does not reduce there). -/
def jsTrim (s : String) : String :=
  ⟨((s.data.dropWhile Char.isWhitespace).reverse.dropWhile Char.isWhitespace).reverse⟩

/-- Decidable equality for `Except`, so that concrete runs of the
embedded operations can be checked by `decide`. -/
instance {ε α : Type} [DecidableEq ε] [DecidableEq α] : DecidableEq (Except ε α) := fun x y =>
  match x, y with
  | .ok a, .ok b =>
    if h : a = b then .isTrue (h ▸ rfl) else .isFalse (fun hh => h (Except.ok.inj hh))
  | .error a, .error b =>
    if h : a = b then .isTrue (h ▸ rfl) else .isFalse (fun hh => h (Except.error.inj hh))
  | .ok _, .error _ => .isFalse Except.noConfusion
  | .error _, .ok _ => .isFalse Except.noConfusion

/-- One request/response pair pushed onto `conversationHistory` by
`saveConversationTurn`: `{timestamp, transcription, ai_response}`. -/
structure ConversationTurn where
  timestamp : Nat
  transcription : String
  ai_response : String
deriving Repr, DecidableEq

/-- The `sessionObj` built by `initializeOpenRouterSession` in
`src/src/openrouter.js` (lines 121-128): plain data plus the mutable
`active` flag. -/
structure Session where
  apiKey : String
  model : String
  systemPrompt : String
  profile : String
  language : String
  active : Bool
deriving Repr, DecidableEq

/-- The `sessionObj` of the older `src/openrouter.js` duplicate
(lines 121-127); it has no `active` field. -/
structure RootSession where
  apiKey : String
  model : String
  systemPrompt : String
  profile : String
  language : String
deriving Repr, DecidableEq

/-- The `lastSessionParams` record stored for reconnection
(`src/src/openrouter.js` lines 102-108). -/
structure SessionParams where
  apiKey : String
  model : String
  customPrompt : String
  profile : String
  language : String
deriving Repr, DecidableEq

/-- Module-level mutable variables of `src/src/openrouter.js`:
`currentSessionId`, `currentTranscription`, `conversationHistory`,
`isInitializingSession`, `reconnectionAttempts`, `lastSessionParams`. -/
structure ORState where
  currentSessionId : Option String
  currentTranscription : String
  conversationHistory : List ConversationTurn
  isInitializingSession : Bool
  reconnectionAttempts : Nat
  lastSessionParams : Option SessionParams
deriving Repr, DecidableEq

/-- Outcome of the awaited `axios.post` to the chat-completions endpoint,
seen from the calling code: `ok content` is a 2xx response whose
extracted `choices[0].message.content` is `content` (`none` when the
path is absent), `fail msg` is a thrown error whose normalized message
is `msg`. -/
inductive NetResult where
  | ok (content : Option String)
  | fail (msg : String)
deriving Repr, DecidableEq

/-- `initializeNewSession` (`src/src/openrouter.js` lines 54-59):
`currentSessionId = Date.now().toString()`, transcription and history
cleared.  `now` is the `Date.now()` read. -/
def initializeNewSession (now : Nat) (st : ORState) : ORState :=
  { st with
    currentSessionId := some (toString now)
    currentTranscription := ""
    conversationHistory := [] }

/-- `saveConversationTurn` (`src/src/openrouter.js` lines 61-81): lazily
starts a session if none exists, then pushes the trimmed turn.  `now`
is the `Date.now()` read used for the timestamp (and for the lazy
session id). -/
def saveConversationTurn (transcription aiResponse : String) (now : Nat) (st : ORState) : ORState :=
  let st1 := if st.currentSessionId = none then initializeNewSession now st else st
  { st1 with
    conversationHistory :=
      st1.conversationHistory ++ [⟨now, jsTrim transcription, jsTrim aiResponse⟩] }

/-- `getCurrentSessionData` (`src/src/openrouter.js` lines 83-88). -/
def getCurrentSessionData (st : ORState) : Option String × List ConversationTurn :=
  (st.currentSessionId, st.conversationHistory)

/-- `initializeOpenRouterSession` (`src/src/openrouter.js` lines 91-134).
Returns `none` for the `return false` taken when another initialize is
in flight.  The function contains no `await` between setting and
clearing `isInitializingSession`, so the flag is false again in the
returned state.  `gsp` stands for the external `getSystemPrompt`
collaborator; `now` is the `Date.now()` read inside
`initializeNewSession`. -/
def initializeOpenRouterSession (gsp : String → String → Bool → String)
    (apiKey model customPrompt profile language : String) (isReconnection : Bool)
    (now : Nat) (st : ORState) : Option Session × ORState :=
  if st.isInitializingSession then (none, st)
  else
    let st1 :=
      if !isReconnection then
        { st with
          lastSessionParams := some ⟨apiKey, model, customPrompt, profile, language⟩
          reconnectionAttempts := 0 }
      else st
    let systemPrompt := gsp profile customPrompt true
    let st2 := if !isReconnection then initializeNewSession now st1 else st1
    (some ⟨apiKey, model, systemPrompt, profile, language, true⟩, st2)

/-- Entry guard of `sendTextToOpenRouter` / `sendImageToOpenRouter`
(`src/src/openrouter.js` lines 138-140 and 182-184): a missing session,
falsy `apiKey` or `model`, or `active == false` throws
`No active OpenRouter session` before any network activity. -/
def sendGuard (session : Option Session) : Except String Session :=
  match session with
  | none => .error "No active OpenRouter session"
  | some s =>
    if s.apiKey = "" ∨ s.model = "" ∨ s.active = false then
      .error "No active OpenRouter session"
    else .ok s

/-- Continuation of `sendTextToOpenRouter` after the awaited `axios.post`
(`src/src/openrouter.js` lines 147-177): on success extract the reply
(`'' ` when absent) and save a turn only `if (text && reply)`; on error
rethrow the normalized message.  The captured `session` object is not
read after the await, so it is not a parameter here. -/
def sendTextComplete (text : String) (net : NetResult) (now : Nat) (st : ORState) :
    Except String (Option String) × ORState :=
  match net with
  | .fail msg => (.error msg, st)
  | .ok content =>
    let reply := content.getD ""
    let st1 := if text ≠ "" ∧ reply ≠ "" then saveConversationTurn text reply now st else st
    (.ok content, st1)

/-- `sendTextToOpenRouter` (`src/src/openrouter.js` lines 137-178) as one
atomic step: result, updated module state, and whether the network call
was issued. -/
def sendTextToOpenRouter (text : String) (session : Option Session) (net : NetResult)
    (now : Nat) (st : ORState) : Except String (Option String) × ORState × Bool :=
  match sendGuard session with
  | .error msg => (.error msg, st, false)
  | .ok _ =>
    let (r, st1) := sendTextComplete text net now st
    (r, st1, true)

/-- Continuation of `sendImageToOpenRouter` after the awaited
`axios.post` (`src/src/openrouter.js` lines 197-226): a turn
`('[Image sent]', reply)` is saved only `if (reply)`. -/
def sendImageComplete (net : NetResult) (now : Nat) (st : ORState) :
    Except String (Option String) × ORState :=
  match net with
  | .fail msg => (.error msg, st)
  | .ok content =>
    let reply := content.getD ""
    let st1 := if reply ≠ "" then saveConversationTurn "[Image sent]" reply now st else st
    (.ok content, st1)

/-- `sendImageToOpenRouter` (`src/src/openrouter.js` lines 181-227) as
one atomic step. -/
def sendImageToOpenRouter (base64Data : String) (session : Option Session) (net : NetResult)
    (now : Nat) (st : ORState) : Except String (Option String) × ORState × Bool :=
  match sendGuard session with
  | .error msg => (.error msg, st, false)
  | .ok _ =>
    let (r, st1) := sendImageComplete net now st
    (r, st1, true)

/-- `sendAudioToOpenRouter` (`src/src/openrouter.js` lines 230-234):
unconditionally throws; never touches the network. -/
def sendAudioToOpenRouter (base64Data : String) (session : Option Session) :
    Except String Unit × Bool :=
  (.error "Audio input not supported in OpenRouter (yet)", false)

/-- `sendImageToOpenRouter` of the older duplicate `src/openrouter.js`
(lines 176-215).  Its guard returns `undefined` (modelled `.ok none`)
instead of throwing, it never consults an `active` flag, and on a 2xx
response it calls `saveConversationTurn('[Image sent]', reply)`
unconditionally, even for an empty reply. -/
def sendImageToOpenRouterRoot (base64Data : String) (session : Option RootSession)
    (net : NetResult) (now : Nat) (st : ORState) :
    Except String (Option (Option String)) × ORState × Bool :=
  match session with
  | none => (.ok none, st, false)
  | some s =>
    if s.apiKey = "" ∨ s.model = "" then (.ok none, st, false)
    else
      match net with
      | .fail msg => (.error msg, st, true)
      | .ok content =>
        let reply := content.getD ""
        (.ok (some content), saveConversationTurn "[Image sent]" reply now st, true)

/-- An argument crossing the IPC boundary: absent/null (falsy), a
string, or some non-string value.  The handlers validate with
`!x || typeof x !== 'string' || x.trim().length === 0`-style guards. -/
inductive IpcArg where
  | missing
  | str (s : String)
  | nonString
deriving Repr, DecidableEq

/-- The uniform `{success, error?}` wire shape produced by the IPC
handlers. -/
structure SimpleResult where
  success : Bool
  error : Option String
deriving Repr, DecidableEq

/-- `{success: true}`. -/
def mkOk : SimpleResult := ⟨true, none⟩

/-- `{success: false, error: msg}`. -/
def mkErr (msg : String) : SimpleResult := ⟨false, some msg⟩

/-- State visible to `src/src/unified-handlers.js`: the OpenRouter
module state, the single OpenRouter session heap cell most recently
created (`orCell`), whether `openRouterSessionRef.current` still points
at it (`orRef`), and whether `geminiSessionRef.current` is non-null
(`gemRef`).  Modelling the session object as a heap cell separate from
the pointer lets a stale handle observe the mutation
`openRouterSessionRef.current.active = false` performed by
`close-session`. -/
structure UnifiedState where
  or : ORState
  orCell : Option Session
  orRef : Bool
  gemRef : Bool
deriving Repr, DecidableEq

/-- The value of `openRouterSessionRef.current`. -/
def orCurrent (st : UnifiedState) : Option Session :=
  if st.orRef then st.orCell else none

/-- `sendTextComplete` lifted to the state visible to the unified
handlers: the continuation running after the awaited network call
touches only the openrouter module variables, never the session heap
cell or the refs. -/
def sendTextCompleteUnified (text : String) (net : NetResult) (now : Nat) (st : UnifiedState) :
    Except String (Option String) × UnifiedState :=
  let (r, or1) := sendTextComplete text net now st.or
  (r, { st with or := or1 })

/-- `ipcMain.handle('close-session')` (`src/src/unified-handlers.js`
lines 271-307).  The Gemini branch awaits `session.close()`, which may
throw (`geminiCloseFails`); on a throw the failure is recorded and the
Gemini ref is NOT nulled.  The OpenRouter branch sets `active = false`
on the shared session object and nulls the ref; nothing in it can
throw.  The handler returns `{success: true, results}`. -/
def closeSessionHandler (geminiCloseFails : Bool) (st : UnifiedState) :
    (SimpleResult × List (String × Bool)) × UnifiedState :=
  let (gemResults, gemRef1) :=
    if st.gemRef then
      if geminiCloseFails then ([("gemini", false)], true) else ([("gemini", true)], false)
    else ([], st.gemRef)
  let (orResults, orCell1, orRef1) :=
    match orCurrent st with
    | some s => ([("openrouter", true)], some { s with active := false }, false)
    | none => ([], st.orCell, st.orRef)
  ((mkOk, gemResults ++ orResults),
   { st with gemRef := gemRef1, orCell := orCell1, orRef := orRef1 })

/-- `ipcMain.handle('initialize-model')` (`src/src/unified-handlers.js`
lines 68-109).  Validates the api key, reads the provider selector
(`modelType`) and, for OpenRouter, the stored model id, then dispatches
to the provider's initialize.  The Gemini adapter is external; its
outcome is the parameter `geminiInitOk`.  The third component records
whether any provider adapter initialize was invoked. -/
def initializeModelHandler (apiKey : IpcArg) (customPrompt profile language : String)
    (modelType openRouterModel : String) (gsp : String → String → Bool → String)
    (geminiInitOk : Bool) (now : Nat) (st : UnifiedState) :
    SimpleResult × UnifiedState × Bool :=
  match apiKey with
  | .missing => (mkErr "Invalid API key provided", st, false)
  | .nonString => (mkErr "Invalid API key provided", st, false)
  | .str k =>
    if k = "" ∨ jsTrim k = "" then (mkErr "Invalid API key provided", st, false)
    else if modelType = "openrouter" then
      match initializeOpenRouterSession gsp (jsTrim k) openRouterModel customPrompt profile language
          false now st.or with
      | (some session, or1) =>
        (mkOk, { st with or := or1, orCell := some session, orRef := true }, true)
      | (none, or1) =>
        (mkErr "Failed to initialize OpenRouter session", { st with or := or1 }, true)
    else
      if geminiInitOk then (mkOk, { st with gemRef := true }, true)
      else (mkErr "Failed to initialize Gemini session", st, true)

/-- `ipcMain.handle('send-text-message')` (`src/src/unified-handlers.js`
lines 112-139).  Validates the text, then for OpenRouter checks
`openRouterSessionRef.current` and its `active` flag before calling
`sendTextToOpenRouter(text.trim(), ...)`; a thrown error is caught and
returned as `{success: false, error}`.  The Gemini send is external
(`geminiOk`).  The third component records whether a network call was
issued. -/
def sendTextMessageUnified (text : IpcArg) (modelType : String) (net : NetResult)
    (geminiOk : Bool) (now : Nat) (st : UnifiedState) :
    SimpleResult × UnifiedState × Bool :=
  match text with
  | .missing => (mkErr "Invalid text message", st, false)
  | .nonString => (mkErr "Invalid text message", st, false)
  | .str s =>
    if s = "" ∨ jsTrim s = "" then (mkErr "Invalid text message", st, false)
    else if modelType = "openrouter" then
      match orCurrent st with
      | none => (mkErr "No active OpenRouter session", st, false)
      | some sess =>
        if sess.active = false then (mkErr "No active OpenRouter session", st, false)
        else
          match sendTextToOpenRouter (jsTrim s) (some sess) net now st.or with
          | (.error msg, or1, nc) => (mkErr msg, { st with or := or1 }, nc)
          | (.ok _, or1, nc) => (mkOk, { st with or := or1 }, nc)
    else
      if st.gemRef then
        if geminiOk then (mkOk, st, true) else (mkErr "Gemini send failed", st, true)
      else (mkErr "No active Gemini session", st, false)

/-- Count of characters Node's lenient base64 decoder consumes; models
`Buffer.from(s, 'base64').length` as three bytes per four alphabet
characters, padding and foreign characters ignored. -/
def base64DecodedLength (s : String) : Nat :=
  3 * (s.toList.filter (fun c => c.isAlphanum || c = '+' || c = '/')).length / 4

/-- `ipcMain.handle('send-image-content')` (`src/src/unified-handlers.js`
lines 142-176).  After the string validation, the OpenRouter branch
forwards straight to `sendImageToOpenRouter`; only the Gemini branch
checks the decoded payload against the 1000-byte floor.  The third
component records whether a network call was issued. -/
def sendImageContentUnified (data : IpcArg) (modelType : String) (net : NetResult)
    (geminiOk : Bool) (now : Nat) (st : UnifiedState) :
    SimpleResult × UnifiedState × Bool :=
  match data with
  | .missing => (mkErr "Invalid image data", st, false)
  | .nonString => (mkErr "Invalid image data", st, false)
  | .str d =>
    if d = "" then (mkErr "Invalid image data", st, false)
    else if modelType = "openrouter" then
      match orCurrent st with
      | none => (mkErr "No active OpenRouter session", st, false)
      | some sess =>
        if sess.active = false then (mkErr "No active OpenRouter session", st, false)
        else
          match sendImageToOpenRouter d (some sess) net now st.or with
          | (.error msg, or1, nc) => (mkErr msg, { st with or := or1 }, nc)
          | (.ok _, or1, nc) => (mkOk, { st with or := or1 }, nc)
    else
      if st.gemRef then
        if base64DecodedLength d < 1000 then (mkErr "Image buffer too small", st, false)
        else if geminiOk then (mkOk, st, true) else (mkErr "Gemini send failed", st, true)
      else (mkErr "No active Gemini session", st, false)

/-- `ipcMain.handle('send-audio-content')` (`src/src/unified-handlers.js`
lines 179-202).  When the provider selector reads `openrouter` the
handler returns the capability error before looking at the session,
the payload, or any adapter. -/
def sendAudioContentUnified (data : IpcArg) (modelType : String) (geminiOk : Bool)
    (st : UnifiedState) : SimpleResult × UnifiedState × Bool :=
  if modelType = "openrouter" then
    (mkErr "Audio input not supported with OpenRouter model.", st, false)
  else if st.gemRef = false then (mkErr "No active Gemini session", st, false)
  else
    match data with
    | .missing => (mkErr "Invalid audio data", st, false)
    | .nonString => (mkErr "Invalid audio data", st, false)
    | .str _ =>
      if geminiOk then (mkOk, st, true) else (mkErr "Gemini send failed", st, true)

/-- `ipcMain.handle('start-new-session')` (`src/src/unified-handlers.js`
lines 334-353).  For OpenRouter it calls the module's
`initializeNewSession()` (clock read `t1`), then — independently —
returns `sessionId: Date.now().toString()` from a second clock read
`t2`.  The Gemini branch resets the Gemini module's own log, which
lives outside the modelled state. -/
def startNewSessionUnified (modelType : String) (t1 t2 : Nat) (st : UnifiedState) :
    (SimpleResult × Option String) × UnifiedState :=
  let st1 := if modelType = "openrouter" then { st with or := initializeNewSession t1 st.or } else st
  ((mkOk, some (toString t2)), st1)

/-- `sendImageMessage` in the renderer (`src/unnamed/part_000` lines
189-207): payloads that are absent or shorter than 100 characters are
rejected before the IPC call is made.  Components: result, state, IPC
invoked, network called. -/
def sendImageMessage (base64data : Option String) (modelType : String) (net : NetResult)
    (geminiOk : Bool) (now : Nat) (st : UnifiedState) :
    SimpleResult × UnifiedState × Bool × Bool :=
  match base64data with
  | none => (mkErr "Invalid image data", st, false, false)
  | some d =>
    if d.length < 100 then (mkErr "Invalid image data", st, false, false)
    else
      let (r, st1, nc) := sendImageContentUnified (.str d) modelType net geminiOk now st
      (r, st1, true, nc)

/-- `Buffer.readInt16LE(offset)`: little-endian signed 16-bit read.
Node throws on an out-of-range offset; the default 0 below is never
reached under the bounds assumed by the theorems. -/
def readInt16LE (b : List Nat) (offset : Nat) : Int :=
  let lo := b.getD offset 0
  let hi := b.getD (offset + 1) 0
  let u := lo + 256 * hi
  if u < 32768 then (u : Int) else (u : Int) - 65536

/-- The two bytes `Buffer.writeInt16LE(v, offset)` stores, low byte
first. -/
def writeInt16LEBytes (v : Int) : Nat × Nat :=
  let u := (v % 65536).toNat
  (u % 256, u / 256)

/-- Lays two-byte frames down consecutively, exactly as the loop's
`monoBuffer.writeInt16LE(leftSample, i * 2)` does for i = 0, 1, .... -/
def flattenPairs : List (Nat × Nat) → List Nat
  | [] => []
  | (a, b) :: rest => a :: b :: flattenPairs rest

/-- `convertStereoToMono` (`src/src/openrouter.js` lines 271-281 and
`src/openrouter.js` lines 331-341): for each of `length / 4` frames,
read the left 16-bit sample at offset `4 * i` and write it at offset
`2 * i` of the output.  For lengths not divisible by 4 the JS loop
would run a fractional bound and its last write would throw a
RangeError; the division here is the Nat floor, which agrees with the
loop on every length divisible by 4. -/
def convertStereoToMono (stereoBuffer : List Nat) : List Nat :=
  let samples := stereoBuffer.length / 4
  flattenPairs ((List.range samples).map fun i => writeInt16LEBytes (readInt16LE stereoBuffer (i * 4)))

/-- A live session value used by concrete witnesses. -/
def sampleSession : Session :=
  ⟨"key-1", "model-a", "sys", "interview", "en-US", true⟩

/-- An OpenRouter module state with an open log and no history. -/
def sampleORState : ORState :=
  ⟨some "1", "", [], false, 0, none⟩

/-- A unified state whose OpenRouter ref points at `sampleSession`. -/
def sampleUnified : UnifiedState :=
  ⟨sampleORState, some sampleSession, true, false⟩

/-- C4: a call to `initializeOpenRouterSession` with `isReconnection = true`
leaves `lastSessionParams`, `reconnectionAttempts`, `currentSessionId`
and `conversationHistory` unchanged, while a non-busy call with
`isReconnection = false` stores the parameters, resets the attempt
counter to 0 and starts a fresh empty log. -/
theorem c4_reconnection_preserves_frame (gsp : String → String → Bool → String)
    (apiKey model customPrompt profile language : String) (now : Nat) (st : ORState) :
    (((initializeOpenRouterSession gsp apiKey model customPrompt profile language true now st).2).lastSessionParams
        = st.lastSessionParams ∧
     ((initializeOpenRouterSession gsp apiKey model customPrompt profile language true now st).2).reconnectionAttempts
        = st.reconnectionAttempts ∧
     ((initializeOpenRouterSession gsp apiKey model customPrompt profile language true now st).2).currentSessionId
        = st.currentSessionId ∧
     ((initializeOpenRouterSession gsp apiKey model customPrompt profile language true now st).2).conversationHistory
        = st.conversationHistory) ∧
    (st.isInitializingSession = false →
     ((initializeOpenRouterSession gsp apiKey model customPrompt profile language false now st).2).lastSessionParams
        = some ⟨apiKey, model, customPrompt, profile, language⟩ ∧
     ((initializeOpenRouterSession gsp apiKey model customPrompt profile language false now st).2).reconnectionAttempts
        = 0 ∧
     ((initializeOpenRouterSession gsp apiKey model customPrompt profile language false now st).2).currentSessionId
        = some (toString now) ∧
     ((initializeOpenRouterSession gsp apiKey model customPrompt profile language false now st).2).conversationHistory
        = []) := by
  constructor
  · by_cases h : st.isInitializingSession <;>
      simp [initializeOpenRouterSession, h]
  · intro h
    simp [initializeOpenRouterSession, h, initializeNewSession]

/-- C4 witness: the frame conditions evaluated at a concrete
reconnection call and at a concrete fresh call. -/
theorem c4_witness :
    ((initializeOpenRouterSession (fun _ _ _ => "sp") "k" "m" "c" "interview" "en-US" true 5 sampleORState).2).conversationHistory
      = sampleORState.conversationHistory ∧
    ((initializeOpenRouterSession (fun _ _ _ => "sp") "k" "m" "c" "interview" "en-US" false 5 sampleORState).2).reconnectionAttempts
      = 0 :=
  ⟨(c4_reconnection_preserves_frame (fun _ _ _ => "sp") "k" "m" "c" "interview" "en-US" 5 sampleORState).1.2.2.2,
   ((c4_reconnection_preserves_frame (fun _ _ _ => "sp") "k" "m" "c" "interview" "en-US" 5 sampleORState).2 rfl).2.1⟩

/-- C5: an initialize observed while another is in flight
(`isInitializingSession = true`) returns the busy rejection (`false`,
modelled `none`) immediately and leaves the module state untouched; the
unified `initialize-model` handler maps that rejection to the
`{success: false}` failure result, again without mutating any session
state. -/
theorem c5_busy_initialize_rejected (gsp : String → String → Bool → String)
    (apiKey model customPrompt profile language : String) (isReconnection : Bool)
    (now : Nat) (st : ORState) (h : st.isInitializingSession = true) :
    initializeOpenRouterSession gsp apiKey model customPrompt profile language isReconnection now st
      = (none, st) ∧
    (∀ (ust : UnifiedState) (k customPrompt2 profile2 language2 orModel : String)
       (gsp2 : String → String → Bool → String) (gOk : Bool) (now2 : Nat),
      ust.or.isInitializingSession = true → jsTrim k ≠ "" →
      initializeModelHandler (.str k) customPrompt2 profile2 language2 "openrouter" orModel gsp2 gOk now2 ust
        = (mkErr "Failed to initialize OpenRouter session", ust, true)) := by
  constructor
  · simp [initializeOpenRouterSession, h]
  · intro ust k customPrompt2 profile2 language2 orModel gsp2 gOk now2 hbusy hk
    have hk0 : ¬(k = "" ∨ jsTrim k = "") := by
      rintro (rfl | hk2)
      · exact hk rfl
      · exact hk hk2
    simp [initializeModelHandler, hk0, initializeOpenRouterSession, hbusy]

/-- C5 witness: the busy rejection evaluated at a concrete busy state. -/
theorem c5_witness :
    initializeOpenRouterSession (fun _ _ _ => "sp") "k" "m" "c" "interview" "en-US" false 5
        { sampleORState with isInitializingSession := true }
      = (none, { sampleORState with isInitializingSession := true }) :=
  (c5_busy_initialize_rejected (fun _ _ _ => "sp") "k" "m" "c" "interview" "en-US" false 5
    { sampleORState with isInitializingSession := true } rfl).1

/-- C7: with the provider selector reading `openrouter`, every
`send-audio-content` call returns the fixed capability failure naming
the provider, with no state change, no adapter invocation and no
network call, whatever the payload and session state; the adapter's own
`sendAudioToOpenRouter` placeholder likewise always fails without
network activity. -/
theorem c7_audio_capability_gate (data : IpcArg) (geminiOk : Bool) (st : UnifiedState) :
    sendAudioContentUnified data "openrouter" geminiOk st
      = (mkErr "Audio input not supported with OpenRouter model.", st, false) ∧
    "Audio input not supported with OpenRouter model."
      = "Audio input not supported with " ++ "OpenRouter" ++ " model." ∧
    (∀ (d : String) (s : Option Session),
      sendAudioToOpenRouter d s
        = (.error "Audio input not supported in OpenRouter (yet)", false)) := by
  refine ⟨?_, rfl, fun d s => rfl⟩
  simp [sendAudioContentUnified]

/-- C8: `initialize-model` with a missing, non-string or blank api key
fails with `Invalid API key provided` and invokes no provider adapter,
for every provider selector value. -/
theorem c8_blank_key_rejected (apiKey : IpcArg)
    (h : apiKey = .missing ∨ apiKey = .nonString ∨ ∃ k, apiKey = .str k ∧ jsTrim k = "")
    (customPrompt profile language modelType orModel : String)
    (gsp : String → String → Bool → String) (geminiInitOk : Bool) (now : Nat)
    (st : UnifiedState) :
    initializeModelHandler apiKey customPrompt profile language modelType orModel gsp geminiInitOk now st
      = (mkErr "Invalid API key provided", st, false) := by
  rcases h with rfl | rfl | ⟨k, rfl, hk⟩
  · rfl
  · rfl
  · simp [initializeModelHandler, hk]

/-- C8 witness: a whitespace-only key is rejected for both provider
selector values. -/
theorem c8_witness :
    initializeModelHandler (.str "   ") "c" "interview" "en-US" "openrouter" "m"
        (fun _ _ _ => "sp") true 5 sampleUnified
      = (mkErr "Invalid API key provided", sampleUnified, false) ∧
    initializeModelHandler (.str "   ") "c" "interview" "en-US" "gemini" "m"
        (fun _ _ _ => "sp") true 5 sampleUnified
      = (mkErr "Invalid API key provided", sampleUnified, false) :=
  ⟨c8_blank_key_rejected (.str "   ") (.inr (.inr ⟨"   ", rfl, by decide⟩)) "c" "interview"
      "en-US" "openrouter" "m" (fun _ _ _ => "sp") true 5 sampleUnified,
   c8_blank_key_rejected (.str "   ") (.inr (.inr ⟨"   ", rfl, by decide⟩)) "c" "interview"
      "en-US" "gemini" "m" (fun _ _ _ => "sp") true 5 sampleUnified⟩

/-- Normal form of the state left by `close-session` when an OpenRouter
session object is current: the Gemini ref survives only a failing Gemini
close, the shared session object is mutated to `active = false`, and
the OpenRouter ref is nulled. -/
theorem closeSessionHandler_state_eq (g : Bool) (st : UnifiedState) (s : Session)
    (hcur : orCurrent st = some s) :
    (closeSessionHandler g st).2
      = { st with
          gemRef := st.gemRef && g
          orCell := some { s with active := false }
          orRef := false } := by
  by_cases hg : st.gemRef <;> by_cases hgf : g <;>
    simp [closeSessionHandler, hcur, hg, hgf]

/-- C2: `close-session` always reports `{success: true}`, with or
without an active session; when an OpenRouter session is current it
flips the shared object's `active` field to false and clears the ref,
a second close is a successful no-op on the OpenRouter fields, and
every subsequent send — through the unified handler or handed the stale
session object directly — fails with `No active OpenRouter session`
without touching the network or the state. -/
theorem c2_close_session :
    (∀ (g : Bool) (st : UnifiedState), ((closeSessionHandler g st).1.1).success = true) ∧
    (∀ (g : Bool) (st : UnifiedState) (s : Session), orCurrent st = some s →
      ((closeSessionHandler g st).2).orCell = some { s with active := false } ∧
      orCurrent ((closeSessionHandler g st).2) = none ∧
      (∀ g2 : Bool,
        ((closeSessionHandler g2 ((closeSessionHandler g st).2)).2).orCell
            = ((closeSessionHandler g st).2).orCell ∧
        ((closeSessionHandler g2 ((closeSessionHandler g st).2)).2).orRef
            = ((closeSessionHandler g st).2).orRef) ∧
      (∀ (text : String) (net : NetResult) (gOk : Bool) (now : Nat), jsTrim text ≠ "" →
        sendTextMessageUnified (.str text) "openrouter" net gOk now ((closeSessionHandler g st).2)
          = (mkErr "No active OpenRouter session", (closeSessionHandler g st).2, false)) ∧
      (∀ (d : String) (net : NetResult) (gOk : Bool) (now : Nat), d ≠ "" →
        sendImageContentUnified (.str d) "openrouter" net gOk now ((closeSessionHandler g st).2)
          = (mkErr "No active OpenRouter session", (closeSessionHandler g st).2, false)) ∧
      (∀ (text : String) (net : NetResult) (now : Nat),
        sendTextToOpenRouter text (((closeSessionHandler g st).2).orCell) net now
            ((closeSessionHandler g st).2).or
          = (.error "No active OpenRouter session", ((closeSessionHandler g st).2).or, false)) ∧
      (∀ (b64 : String) (net : NetResult) (now : Nat),
        sendImageToOpenRouter b64 (((closeSessionHandler g st).2).orCell) net now
            ((closeSessionHandler g st).2).or
          = (.error "No active OpenRouter session", ((closeSessionHandler g st).2).or, false))) := by
  constructor
  · intro g st
    simp [closeSessionHandler, mkOk]
  · intro g st s hcur
    have hform := closeSessionHandler_state_eq g st s hcur
    refine ⟨by rw [hform], by rw [hform]; simp [orCurrent], ?_, ?_, ?_, ?_, ?_⟩
    · intro g2
      rw [hform]
      constructor <;> simp [closeSessionHandler, orCurrent]
    · intro text net gOk now htext
      have ht0 : ¬(text = "" ∨ jsTrim text = "") := by
        rintro (rfl | ht)
        · exact htext rfl
        · exact htext ht
      rw [hform]
      simp [sendTextMessageUnified, ht0, orCurrent]
    · intro d net gOk now hd
      rw [hform]
      simp [sendImageContentUnified, hd, orCurrent]
    · intro text net now
      rw [hform]
      simp [sendTextToOpenRouter, sendGuard]
    · intro b64 net now
      rw [hform]
      simp [sendImageToOpenRouter, sendGuard]

/-- C2 witness: closing the sample state succeeds; the stale object
carries `active = false`; a subsequent unified text send and a direct
send with the stale handle both fail without network activity. -/
theorem c2_witness :
    ((closeSessionHandler false sampleUnified).1.1).success = true ∧
    ((closeSessionHandler false sampleUnified).2).orCell
      = some { sampleSession with active := false } ∧
    sendTextMessageUnified (.str "hello") "openrouter" (.ok (some "hi")) false 7
        ((closeSessionHandler false sampleUnified).2)
      = (mkErr "No active OpenRouter session", (closeSessionHandler false sampleUnified).2, false) ∧
    sendTextToOpenRouter "hello" (((closeSessionHandler false sampleUnified).2).orCell)
        (.ok (some "hi")) 7 ((closeSessionHandler false sampleUnified).2).or
      = (.error "No active OpenRouter session",
         ((closeSessionHandler false sampleUnified).2).or, false) :=
  ⟨c2_close_session.1 false sampleUnified,
   (c2_close_session.2 false sampleUnified sampleSession rfl).1,
   (c2_close_session.2 false sampleUnified sampleSession rfl).2.2.2.1 "hello" (.ok (some "hi"))
     false 7 (by decide),
   (c2_close_session.2 false sampleUnified sampleSession rfl).2.2.2.2.2.1 "hello"
     (.ok (some "hi")) 7⟩

/-- C1 counterexample: with a valid session and a 2xx response whose
extracted content is the empty string, the root-module
`sendImageToOpenRouter` returns normally AND appends a turn whose
`ai_response` is empty — a turn recorded although no non-empty response
text was obtained — while the unified-module `sendTextToOpenRouter`
returns normally (a successful call) yet appends zero turns.  Both
refute the claim as stated at concrete inputs. -/
theorem c1_counterexample :
    (sendImageToOpenRouterRoot "img" (some ⟨"k", "m", "sp", "interview", "en-US"⟩)
        (.ok (some "")) 7 sampleORState).1 = .ok (some (some "")) ∧
    ((sendImageToOpenRouterRoot "img" (some ⟨"k", "m", "sp", "interview", "en-US"⟩)
        (.ok (some "")) 7 sampleORState).2.1).conversationHistory
      = [⟨7, "[Image sent]", ""⟩] ∧
    (sendTextToOpenRouter "hello" (some sampleSession) (.ok (some "")) 7 sampleORState).1
      = .ok (some "") ∧
    ((sendTextToOpenRouter "hello" (some sampleSession) (.ok (some "")) 7
        sampleORState).2.1).conversationHistory
      = [] := by
  decide

/-- C1 (amended): a call that throws appends zero turns; a non-throwing
unified-module `sendTextToOpenRouter` appends exactly one turn when both
the input text and the extracted reply are non-empty and zero turns
otherwise; a non-throwing unified-module `sendImageToOpenRouter`
appends exactly one turn when the reply is non-empty and zero
otherwise; the root-module `sendImageToOpenRouter` appends exactly one
turn on every non-throwing guarded call, even when the reply is
empty. -/
theorem c1_turn_recording_amended (text b64 b64r : String) (s : Session) (rs : RootSession)
    (net : NetResult) (now : Nat) (st : ORState)
    (hkey : s.apiKey ≠ "") (hmodel : s.model ≠ "") (hactive : s.active = true)
    (hrkey : rs.apiKey ≠ "") (hrmodel : rs.model ≠ "")
    (hsid : st.currentSessionId ≠ none) :
    (∀ msg, net = .fail msg →
      (sendTextToOpenRouter text (some s) net now st).2.1 = st ∧
      (sendImageToOpenRouter b64 (some s) net now st).2.1 = st ∧
      (sendImageToOpenRouterRoot b64r (some rs) net now st).2.1 = st) ∧
    (∀ content, net = .ok content →
      ((sendTextToOpenRouter text (some s) net now st).2.1).conversationHistory
        = (if text ≠ "" ∧ content.getD "" ≠ "" then
            st.conversationHistory ++ [⟨now, jsTrim text, jsTrim (content.getD "")⟩]
          else st.conversationHistory) ∧
      ((sendImageToOpenRouter b64 (some s) net now st).2.1).conversationHistory
        = (if content.getD "" ≠ "" then
            st.conversationHistory ++ [⟨now, jsTrim "[Image sent]", jsTrim (content.getD "")⟩]
          else st.conversationHistory) ∧
      ((sendImageToOpenRouterRoot b64r (some rs) net now st).2.1).conversationHistory
        = st.conversationHistory ++ [⟨now, jsTrim "[Image sent]", jsTrim (content.getD "")⟩]) := by
  have hguard : sendGuard (some s) = .ok s := by
    simp [sendGuard, hkey, hmodel, hactive]
  have hsave : ∀ tr ai, (saveConversationTurn tr ai now st).conversationHistory
      = st.conversationHistory ++ [⟨now, jsTrim tr, jsTrim ai⟩] := by
    intro tr ai
    simp [saveConversationTurn, hsid]
  constructor
  · rintro msg rfl
    refine ⟨?_, ?_, ?_⟩ <;>
      simp [sendTextToOpenRouter, sendImageToOpenRouter, sendImageToOpenRouterRoot,
        hguard, sendTextComplete, sendImageComplete, hrkey, hrmodel]
  · rintro content rfl
    refine ⟨?_, ?_, ?_⟩
    · by_cases hc : text ≠ "" ∧ content.getD "" ≠ "" <;>
        simp [sendTextToOpenRouter, hguard, sendTextComplete, hc, hsave]
    · by_cases hc : content.getD "" ≠ "" <;>
        simp [sendImageToOpenRouter, hguard, sendImageComplete, hc, hsave]
    · simp [sendImageToOpenRouterRoot, hrkey, hrmodel, hsave]

/-- C1 witness: the amended recording rule evaluated at a successful
text send with a non-empty reply and at a failing root image send. -/
theorem c1_witness :
    ((sendTextToOpenRouter "hello" (some sampleSession) (.ok (some "hi")) 7
        sampleORState).2.1).conversationHistory
      = sampleORState.conversationHistory ++ [⟨7, jsTrim "hello", jsTrim "hi"⟩] ∧
    (sendImageToOpenRouterRoot "img" (some ⟨"k", "m", "sp", "interview", "en-US"⟩)
        (.fail "boom") 7 sampleORState).2.1 = sampleORState :=
  ⟨((c1_turn_recording_amended "hello" "b" "img" sampleSession
      ⟨"k", "m", "sp", "interview", "en-US"⟩ (.ok (some "hi")) 7 sampleORState
      (by decide) (by decide) rfl (by decide) (by decide) (by decide)).2 (some "hi") rfl).1,
   ((c1_turn_recording_amended "hello" "b" "img" sampleSession
      ⟨"k", "m", "sp", "interview", "en-US"⟩ (.fail "boom") 7 sampleORState
      (by decide) (by decide) rfl (by decide) (by decide) (by decide)).1 "boom" rfl).2.2⟩

/-- C3 counterexample: in the concrete interleaving "send passes its
entry guard, `close-session` runs, the send's network call then
completes with reply `hi`", the completed send appends its turn to the
conversation history (which `close-session` had left empty) — the
result is not discarded, contradicting the claim. -/
theorem c3_counterexample :
    sendGuard (orCurrent sampleUnified) = .ok sampleSession ∧
    ((closeSessionHandler false sampleUnified).2).or.conversationHistory = [] ∧
    ((sendTextComplete "hello" (.ok (some "hi")) 9
        ((closeSessionHandler false sampleUnified).2).or).2).conversationHistory
      = [⟨9, "hello", "hi"⟩] := by
  decide

/-- C3 (amended): when `close-session` runs between an in-flight send's
entry guard and its completion, the completion never flips the stale
session object's `active` back to true (the cell keeps `active = false`
and the ref stays null), but the send's result is NOT discarded: a
completion carrying a non-empty reply still appends its turn to the
Conversation Log, because the code re-checks nothing after the await. -/
theorem c3_inflight_send_not_discarded (g : Bool) (st : UnifiedState) (s : Session)
    (text : String) (content : Option String) (now : Nat)
    (hcur : orCurrent st = some s) (hguard : sendGuard (some s) = .ok s)
    (hsid : st.or.currentSessionId ≠ none)
    (htext : text ≠ "") (hreply : content.getD "" ≠ "") :
    ((sendTextCompleteUnified text (.ok content) now
        ((closeSessionHandler g st).2)).2).or.conversationHistory
      = st.or.conversationHistory ++ [⟨now, jsTrim text, jsTrim (content.getD "")⟩] ∧
    ((sendTextCompleteUnified text (.ok content) now
        ((closeSessionHandler g st).2)).2).orCell = some { s with active := false } ∧
    ((sendTextCompleteUnified text (.ok content) now
        ((closeSessionHandler g st).2)).2).orRef = false := by
  have hform := closeSessionHandler_state_eq g st s hcur
  rw [hform]
  refine ⟨?_, rfl, rfl⟩
  simp [sendTextCompleteUnified, sendTextComplete, htext, hreply,
    saveConversationTurn, hsid]

/-- C3 witness: the amended statement evaluated at the concrete
interleaving of `c3_counterexample`. -/
theorem c3_witness :
    ((sendTextCompleteUnified "hello" (.ok (some "hi")) 9
        ((closeSessionHandler false sampleUnified).2)).2).or.conversationHistory
      = sampleUnified.or.conversationHistory ++ [⟨9, jsTrim "hello", jsTrim "hi"⟩] ∧
    ((sendTextCompleteUnified "hello" (.ok (some "hi")) 9
        ((closeSessionHandler false sampleUnified).2)).2).orCell
      = some { sampleSession with active := false } :=
  ⟨(c3_inflight_send_not_discarded false sampleUnified sampleSession "hello" (some "hi") 9
      rfl rfl (by decide) (by decide) (by decide)).1,
   (c3_inflight_send_not_discarded false sampleUnified sampleSession "hello" (some "hi") 9
      rfl rfl (by decide) (by decide) (by decide)).2.1⟩

/-- C6 counterexample: two consecutive `start-new-session` calls whose
clock reads all fall in the same millisecond (1000) return the SAME
session id, not a different one; and when the millisecond ticks between
the handler's two separate `Date.now()` reads (1000 then 1001), the
sessionId returned to the caller differs from the freshly minted id of
the Conversation Log. -/
theorem c6_counterexample :
    (startNewSessionUnified "openrouter" 1000 1000 sampleUnified).1.2 = some "1000" ∧
    (startNewSessionUnified "openrouter" 1000 1000
        ((startNewSessionUnified "openrouter" 1000 1000 sampleUnified).2)).1.2 = some "1000" ∧
    ((startNewSessionUnified "openrouter" 1000 1001 sampleUnified).2).or.currentSessionId
      = some "1000" ∧
    (startNewSessionUnified "openrouter" 1000 1001 sampleUnified).1.2 = some "1001" := by
  decide

/-- C6 (amended): every `start-new-session` call with the OpenRouter
provider active succeeds, resets the turn history to empty, and sets
the log's id to the string of the `Date.now()` read inside
`initializeNewSession`, while the sessionId returned to the caller is
the string of a second, independent `Date.now()` read; the two agree
when both reads fall in the same millisecond, and consecutive calls are
distinguished only as far as those clock strings differ. -/
theorem c6_start_new_session_amended (t1 t2 : Nat) (st : UnifiedState) :
    (startNewSessionUnified "openrouter" t1 t2 st).1.1 = mkOk ∧
    (startNewSessionUnified "openrouter" t1 t2 st).1.2 = some (toString t2) ∧
    ((startNewSessionUnified "openrouter" t1 t2 st).2).or.conversationHistory = [] ∧
    ((startNewSessionUnified "openrouter" t1 t2 st).2).or.currentSessionId
      = some (toString t1) ∧
    (t1 = t2 →
      (startNewSessionUnified "openrouter" t1 t2 st).1.2
        = ((startNewSessionUnified "openrouter" t1 t2 st).2).or.currentSessionId) := by
  refine ⟨rfl, rfl, ?_, ?_, ?_⟩
  · simp [startNewSessionUnified, initializeNewSession]
  · simp [startNewSessionUnified, initializeNewSession]
  · rintro rfl
    simp [startNewSessionUnified, initializeNewSession]

/-- C6 witness: the same-millisecond agreement between returned id and
log id, evaluated at a concrete call. -/
theorem c6_witness :
    (startNewSessionUnified "openrouter" 42 42 sampleUnified).1.2
      = ((startNewSessionUnified "openrouter" 42 42 sampleUnified).2).or.currentSessionId :=
  (c6_start_new_session_amended 42 42 sampleUnified).2.2.2.2 rfl

/-- C9: a payload that is absent or shorter than the renderer's
100-character minimum-plausible-size threshold makes the image-send
boundary fail with `Invalid image data` before the IPC handler is even
invoked — hence no provider adapter runs and no network call happens —
for every provider selector value. -/
theorem c9_short_image_rejected (b : Option String)
    (h : b = none ∨ ∃ d, b = some d ∧ d.length < 100)
    (modelType : String) (net : NetResult) (geminiOk : Bool) (now : Nat) (st : UnifiedState) :
    sendImageMessage b modelType net geminiOk now st
      = (mkErr "Invalid image data", st, false, false) := by
  rcases h with rfl | ⟨d, rfl, hd⟩
  · rfl
  · simp [sendImageMessage, hd]

/-- C9 witness: a 5-character payload is rejected without reaching IPC
under both provider selector values. -/
theorem c9_witness :
    sendImageMessage (some "short") "openrouter" (.ok (some "hi")) true 7 sampleUnified
      = (mkErr "Invalid image data", sampleUnified, false, false) ∧
    sendImageMessage (some "short") "gemini" (.ok (some "hi")) true 7 sampleUnified
      = (mkErr "Invalid image data", sampleUnified, false, false) :=
  ⟨c9_short_image_rejected (some "short") (.inr ⟨"short", rfl, by decide⟩) "openrouter"
      (.ok (some "hi")) true 7 sampleUnified,
   c9_short_image_rejected (some "short") (.inr ⟨"short", rfl, by decide⟩) "gemini"
      (.ok (some "hi")) true 7 sampleUnified⟩

/-- Laying down two-byte frames doubles the length. -/
theorem flattenPairs_length (l : List (Nat × Nat)) :
    (flattenPairs l).length = 2 * l.length := by
  induction l with
  | nil => rfl
  | cons p rest ih =>
    obtain ⟨a, b⟩ := p
    simp only [flattenPairs, List.length_cons, ih]
    omega

/-- Byte `2 * i` (resp. `2 * i + 1`) of the laid-out buffer is the low
(resp. high) byte of frame `i`. -/
theorem flattenPairs_getD (l : List (Nat × Nat)) (i : Nat) (h : i < l.length) :
    (flattenPairs l).getD (2 * i) 0 = (l.getD i (0, 0)).1 ∧
    (flattenPairs l).getD (2 * i + 1) 0 = (l.getD i (0, 0)).2 := by
  induction l generalizing i with
  | nil => simp at h
  | cons p rest ih =>
    obtain ⟨a, b⟩ := p
    cases i with
    | zero => constructor <;> simp [flattenPairs]
    | succ j =>
      have hj : j < rest.length := by
        simp only [List.length_cons] at h
        omega
      obtain ⟨ih1, ih2⟩ := ih j hj
      have e1 : 2 * (j + 1) = 2 * j + 1 + 1 := by omega
      have e2 : 2 * (j + 1) + 1 = 2 * j + 1 + 1 + 1 := by omega
      constructor
      · rw [e1]
        simp only [flattenPairs, List.getD_cons_succ]
        exact ih1
      · rw [e2]
        simp only [flattenPairs, List.getD_cons_succ]
        exact ih2

/-- Reading a 16-bit sample off two in-range bytes and writing it back
reproduces those two bytes. -/
theorem writeInt16LEBytes_readInt16LE (b : List Nat) (off : Nat)
    (h1 : off + 1 < b.length) (hb : ∀ x ∈ b, x < 256) :
    writeInt16LEBytes (readInt16LE b off) = (b.getD off 0, b.getD (off + 1) 0) := by
  have hoff : off < b.length := by omega
  have hlo : b.getD off 0 < 256 := by
    rw [List.getD_eq_getElem _ _ hoff]
    exact hb _ (List.getElem_mem _)
  have hhi : b.getD (off + 1) 0 < 256 := by
    rw [List.getD_eq_getElem _ _ h1]
    exact hb _ (List.getElem_mem _)
  unfold readInt16LE writeInt16LEBytes
  simp only [Prod.mk.injEq]
  split_ifs with hc <;> constructor <;> omega

/-- C10: for a stereo buffer of in-range bytes whose length is a
multiple of 4, `convertStereoToMono` produces a buffer of exactly half
the length whose i-th little-endian 16-bit sample equals the left
(first) 16-bit sample of the i-th 4-byte stereo frame of the input. -/
theorem c10_convertStereoToMono (b : List Nat) (h4 : b.length % 4 = 0)
    (hb : ∀ x ∈ b, x < 256) :
    (convertStereoToMono b).length = b.length / 2 ∧
    ∀ i, i < b.length / 4 →
      readInt16LE (convertStereoToMono b) (2 * i) = readInt16LE b (4 * i) := by
  constructor
  · unfold convertStereoToMono
    rw [flattenPairs_length, List.length_map, List.length_range]
    omega
  · intro i hi
    have hidx : i < ((List.range (b.length / 4)).map
        (fun i => writeInt16LEBytes (readInt16LE b (i * 4)))).length := by
      rw [List.length_map, List.length_range]
      exact hi
    obtain ⟨hL, hR⟩ := flattenPairs_getD _ i hidx
    have hget : ((List.range (b.length / 4)).map
        (fun i => writeInt16LEBytes (readInt16LE b (i * 4)))).getD i (0, 0)
        = writeInt16LEBytes (readInt16LE b (i * 4)) := by
      rw [List.getD_eq_getElem _ _ hidx]
      simp
    have hbound : 4 * i + 1 < b.length := by omega
    have hrt := writeInt16LEBytes_readInt16LE b (4 * i) hbound hb
    have hcomm : i * 4 = 4 * i := Nat.mul_comm i 4
    rw [hcomm] at hget
    have hb0 : (convertStereoToMono b).getD (2 * i) 0 = b.getD (4 * i) 0 := by
      unfold convertStereoToMono
      rw [hL, hget, hrt]
    have hb1 : (convertStereoToMono b).getD (2 * i + 1) 0 = b.getD (4 * i + 1) 0 := by
      unfold convertStereoToMono
      rw [hR, hget, hrt]
    unfold readInt16LE
    rw [hb0, hb1]

/-- C10 witness: the sample-preservation property evaluated on a
concrete 8-byte (two-frame) stereo buffer. -/
theorem c10_witness :
    (convertStereoToMono [1, 2, 3, 4, 5, 6, 7, 8]).length = 4 ∧
    readInt16LE (convertStereoToMono [1, 2, 3, 4, 5, 6, 7, 8]) (2 * 1)
      = readInt16LE [1, 2, 3, 4, 5, 6, 7, 8] (4 * 1) :=
  ⟨(c10_convertStereoToMono [1, 2, 3, 4, 5, 6, 7, 8] (by decide) (by decide)).1,
   (c10_convertStereoToMono [1, 2, 3, 4, 5, 6, 7, 8] (by decide) (by decide)).2 1 (by decide)⟩

end Cheddar
